import Mathlib

/-!
Verification of the Black-Scholes option pricer core (`src/black_scholes.py`).

The Python code computes over IEEE doubles with `numpy`/`scipy`; we embed it
over an arbitrary linear ordered field `α` (instantiated with `ℚ` for concrete
evaluations), with the transcendental primitives used by the code — `np.log`,
`np.sqrt`, `np.exp`, `scipy.stats.norm.cdf`, `scipy.stats.norm.pdf` — supplied
abstractly through a `Prims` record.  Every definition below mirrors one
function of `src/black_scholes.py`; control flow (branches, the Newton loop's
iteration bound, clamping, string dispatch on the option side) is carried over
verbatim.
-/

namespace BlackScholes

/-- The numerical primitives the Python code takes from numpy/scipy:
`log`, `sqrt`, `exp`, the standard normal cdf `Φ` (`norm.cdf`) and
pdf `φ` (`norm.pdf`). -/
structure Prims (α : Type) where
  log : α → α
  sqrt : α → α
  exp : α → α
  cdf : α → α
  pdf : α → α

variable {α : Type} [LinearOrderedField α]

/-- `d1 = (np.log(S / K) + (r + 0.5 * sigma**2) * T) / (sigma * np.sqrt(T))`,
the expression computed identically in `black_scholes_price` (line 26) and
`calculate_greeks` (line 72). -/
def d1 (P : Prims α) (S K T r sigma : α) : α :=
  (P.log (S / K) + (r + 1 / 2 * sigma ^ 2) * T) / (sigma * P.sqrt T)

/-- `d2 = d1 - sigma * np.sqrt(T)` (lines 27 and 73). -/
def d2 (P : Prims α) (S K T r sigma : α) : α :=
  d1 P S K T r sigma - sigma * P.sqrt T

/-- `black_scholes_price` (lines 5–33): intrinsic value when `T <= 0`,
otherwise the closed-form call/put pair. -/
def black_scholes_price (P : Prims α) (S K T r sigma : α) : α × α :=
  if T ≤ 0 then
    (max (S - K) 0, max (K - S) 0)
  else
    (S * P.cdf (d1 P S K T r sigma) - K * P.exp (-r * T) * P.cdf (d2 P S K T r sigma),
     K * P.exp (-r * T) * P.cdf (-(d2 P S K T r sigma)) - S * P.cdf (-(d1 P S K T r sigma)))

/-- Result record of `calculate_greeks` (lines 95–99). -/
structure GreeksResult (α : Type) where
  call_delta : α
  put_delta : α
  gamma : α
  call_theta : α
  put_theta : α
  vega : α
  call_rho : α
  put_rho : α
deriving DecidableEq

/-- `calculate_greeks` (lines 70–99): raw Greeks, with theta reported per day
(`/365`) and vega, rho per percentage point (`/100`). -/
def calculate_greeks (P : Prims α) (S K T r sigma : α) : GreeksResult α :=
  let D1 := d1 P S K T r sigma
  let D2 := d2 P S K T r sigma
  let call_delta := P.cdf D1
  let put_delta := call_delta - 1
  let gamma := P.pdf D1 / (S * sigma * P.sqrt T)
  let call_theta := -S * P.pdf D1 * sigma / (2 * P.sqrt T) - r * K * P.exp (-r * T) * P.cdf D2
  let put_theta := -S * P.pdf D1 * sigma / (2 * P.sqrt T) + r * K * P.exp (-r * T) * P.cdf (-D2)
  let vega := S * P.pdf D1 * P.sqrt T
  let call_rho := K * T * P.exp (-r * T) * P.cdf D2
  let put_rho := -K * T * P.exp (-r * T) * P.cdf (-D2)
  ⟨call_delta, put_delta, gamma, call_theta / 365, put_theta / 365,
   vega / 100, call_rho / 100, put_rho / 100⟩

/-- `np.linspace(start, stop, num)`: `num` evenly spaced samples over
`[start, stop]`, both endpoints included (`start + i * (stop - start)/(num-1)`;
for `num = 1` numpy returns `[start]`, for `num = 0` the empty array). -/
def linspace (start stop : α) (num : Nat) : List α :=
  if num = 1 then [start]
  else (List.range num).map fun i : ℕ => start + (i : α) * ((stop - start) / ((num : α) - 1))

/-- Result record of `generate_pnl_surface` (lines 63–68). -/
structure PnLSurface (α : Type) where
  stock_prices : List α
  volatilities : List α
  call_pnl : List (List α)
  put_pnl : List (List α)
deriving DecidableEq

/-- `generate_pnl_surface` (lines 35–68): symmetric relative ranges around the
base spot and volatility, `grid_size` linspace axes, and P&L matrices indexed
`[volatility row][price column]` holding the re-priced option value minus the
purchase cost. -/
def generate_pnl_surface (P : Prims α)
    (base_S K T r base_sigma call_purchase put_purchase price_range vol_range : α)
    (grid_size : Nat) : PnLSurface α :=
  let min_price := base_S * (1 - price_range)
  let max_price := base_S * (1 + price_range)
  let min_vol := base_sigma * (1 - vol_range)
  let max_vol := base_sigma * (1 + vol_range)
  let stock_prices := linspace min_price max_price grid_size
  let volatilities := linspace min_vol max_vol grid_size
  ⟨stock_prices, volatilities,
   volatilities.map fun vol => stock_prices.map fun price =>
     (black_scholes_price P price K T r vol).1 - call_purchase,
   volatilities.map fun vol => stock_prices.map fun price =>
     (black_scholes_price P price K T r vol).2 - put_purchase⟩

/-- Result record of `generate_greeks_heatmaps` (lines 127–134). -/
structure GreeksHeatmaps (α : Type) where
  stock_prices : List α
  volatilities : List α
  call_delta : List (List α)
  put_delta : List (List α)
  gamma : List (List α)
  vega : List (List α)
deriving DecidableEq

/-- `generate_greeks_heatmaps` (lines 101–134): same axes as the P&L surface,
with per-node Greeks extracted from `calculate_greeks`. -/
def generate_greeks_heatmaps (P : Prims α)
    (base_S K T r base_sigma price_range vol_range : α) (grid_size : Nat) : GreeksHeatmaps α :=
  let min_price := base_S * (1 - price_range)
  let max_price := base_S * (1 + price_range)
  let min_vol := base_sigma * (1 - vol_range)
  let max_vol := base_sigma * (1 + vol_range)
  let stock_prices := linspace min_price max_price grid_size
  let volatilities := linspace min_vol max_vol grid_size
  ⟨stock_prices, volatilities,
   volatilities.map fun vol => stock_prices.map fun price =>
     (calculate_greeks P price K T r vol).call_delta,
   volatilities.map fun vol => stock_prices.map fun price =>
     (calculate_greeks P price K T r vol).put_delta,
   volatilities.map fun vol => stock_prices.map fun price =>
     (calculate_greeks P price K T r vol).gamma,
   volatilities.map fun vol => stock_prices.map fun price =>
     (calculate_greeks P price K T r vol).vega⟩

/-- The model-price leg selected by `option_type` in `implied_volatility`
(lines 159–162): the call leg for the exact string `"call"`, the put leg for
anything else. -/
def iv_leg (P : Prims α) (S K T r sigma : α) (option_type : String) : α :=
  let q := black_scholes_price P S K T r sigma
  if option_type = "call" then q.1 else q.2

/-- The vega used as Newton derivative (line 164): the reported vega of
`calculate_greeks` rescaled back to raw by `* 100`. -/
def iv_vega (P : Prims α) (S K T r sigma : α) : α :=
  (calculate_greeks P S K T r sigma).vega * 100

/-- One Newton update of `implied_volatility` (lines 174–177):
`sigma - price_difference / vega`, clamped to `0.001` when it turns negative. -/
def iv_update (P : Prims α) (option_price S K T r sigma : α) (option_type : String) : α :=
  if sigma - (option_price - iv_leg P S K T r sigma option_type) / iv_vega P S K T r sigma < 0
  then 1 / 1000
  else sigma - (option_price - iv_leg P S K T r sigma option_type) / iv_vega P S K T r sigma

/-- The `for i in range(MAX_ITERATIONS)` loop of `implied_volatility`
(lines 156–179), fuelled by the remaining iteration count: return the current
`sigma` on convergence (`|price_difference| < 1e-5`), break returning the
current `sigma` when vega is exactly `0`, else recurse on the updated `sigma`;
when the fuel runs out the last `sigma` is returned. -/
def iv_loop (P : Prims α) (option_price S K T r : α) (option_type : String) :
    Nat → α → α
  | 0, sigma => sigma
  | n + 1, sigma =>
    if |option_price - iv_leg P S K T r sigma option_type| < 1 / 100000 then sigma
    else if iv_vega P S K T r sigma = 0 then sigma
    else iv_loop P option_price S K T r option_type n
      (iv_update P option_price S K T r sigma option_type)

/-- `implied_volatility` (lines 136–179): `MAX_ITERATIONS = 100` Newton steps
from the initial guess `sigma = 0.5`. -/
def implied_volatility (P : Prims α) (option_price S K T r : α) (option_type : String) : α :=
  iv_loop P option_price S K T r option_type 100 (1 / 2)

/-- A concrete rational record of primitives.  It is NOT a model of
numpy/scipy (e.g. its `log` is `id`); it serves only to instantiate theorems
that are universally quantified over `Prims`, so that their hypotheses can be
discharged on concrete rationals.  Its `cdf` is the constant `1/2`, which does
satisfy the symmetry `cdf x + cdf (-x) = 1` of the standard normal cdf. -/
def P0 : Prims ℚ := ⟨id, id, fun _ => 1, fun _ => 1 / 2, fun _ => 1⟩

/-- A second concrete record, again only for instantiating universally
quantified theorems: its `pdf` is constantly `0`, which makes the Newton vega
vanish and lets a witness exercise the loop's vega-zero branch. -/
def Pz : Prims ℚ := ⟨id, id, fun _ => 1, fun _ => 0, fun _ => 0⟩

/-- C1: for every input with `T ≤ 0`, `black_scholes_price` returns the
intrinsic values `(max (S - K) 0, max (K - S) 0)`, regardless of `sigma`
and `r`. -/
theorem price_intrinsic_at_expiry (P : Prims α) (S K T r sigma : α) (hT : T ≤ 0) :
    black_scholes_price P S K T r sigma = (max (S - K) 0, max (K - S) 0) := by
  simp [black_scholes_price, hT]

/-- Witness for C1 at the spec's boundary examples:
`price(110, 100, T = 0) = (10, 0)` and `price(90, 100, T = 0) = (0, 10)`. -/
theorem price_intrinsic_at_expiry_witness :
    black_scholes_price P0 110 100 0 0 1 = (10, 0) ∧
    black_scholes_price P0 90 100 0 0 1 = (0, 10) :=
  ⟨(price_intrinsic_at_expiry P0 110 100 0 0 1 le_rfl).trans
     (by norm_num [Prod.ext_iff, max_def]),
   (price_intrinsic_at_expiry P0 90 100 0 0 1 le_rfl).trans
     (by norm_num [Prod.ext_iff, max_def])⟩

/-- C2: for every input with `S > 0`, `K > 0`, `sigma > 0`, `T > 0`, the pair
returned by `black_scholes_price` satisfies put-call parity
`call - put = S - K * exp (-r * T)` exactly (hence within any tolerance), for
any cdf with the standard normal symmetry `Φ x + Φ (-x) = 1`. -/
theorem put_call_parity (P : Prims α) (S K T r sigma : α)
    (hsym : ∀ x, P.cdf x + P.cdf (-x) = 1)
    (hS : 0 < S) (hK : 0 < K) (hsig : 0 < sigma) (hT : 0 < T) :
    (black_scholes_price P S K T r sigma).1 - (black_scholes_price P S K T r sigma).2
      = S - K * P.exp (-r * T) := by
  simp only [black_scholes_price, if_neg (not_le.mpr hT)]
  linear_combination S * hsym (d1 P S K T r sigma)
    - K * P.exp (-r * T) * hsym (d2 P S K T r sigma)

/-- Witness for C2 at `S = K = 100`, `T = 1`, `r = 0`, `sigma = 1/5`,
with the symmetric rational cdf of `P0`. -/
theorem put_call_parity_witness :
    (black_scholes_price P0 100 100 1 0 (1 / 5)).1
      - (black_scholes_price P0 100 100 1 0 (1 / 5)).2 = 100 - 100 * P0.exp (-0 * 1) :=
  put_call_parity P0 100 100 1 0 (1 / 5) (fun x => by norm_num [P0])
    (by norm_num) (by norm_num) (by norm_num) (by norm_num)

/-- C3 counterexample: the claim says `price` fails with `InvalidInput` for
`T < 0`; instead the code's `T <= 0` branch returns the intrinsic pair at
`T = -1`, a normal value — no error is ever raised. -/
theorem price_no_validation_counterexample :
    black_scholes_price P0 110 100 (-1) 0 1 = (10, 0) := by
  norm_num [black_scholes_price, Prod.ext_iff, max_def]

/-- C3 amended: `black_scholes_price` performs no input validation and never
fails: `T < 0` is absorbed by the intrinsic-value branch, and with `T > 0`
arbitrary non-positive `S`, `K` or `sigma` are fed to the closed-form formula
unchecked. -/
theorem price_total_no_validation (P : Prims α) (S K T r sigma : α) :
    (T < 0 → black_scholes_price P S K T r sigma = (max (S - K) 0, max (K - S) 0)) ∧
    (0 < T → black_scholes_price P S K T r sigma =
      (S * P.cdf (d1 P S K T r sigma) - K * P.exp (-r * T) * P.cdf (d2 P S K T r sigma),
       K * P.exp (-r * T) * P.cdf (-(d2 P S K T r sigma))
         - S * P.cdf (-(d1 P S K T r sigma)))) := by
  constructor
  · intro hT
    simp [black_scholes_price, le_of_lt hT]
  · intro hT
    simp [black_scholes_price, not_le.mpr hT]

/-- Witness for C3's amended statement: at `T = -1` the intrinsic branch fires,
and at `T = 1` the formula is evaluated even for the invalid `sigma = -3`. -/
theorem price_total_no_validation_witness :
    black_scholes_price P0 110 100 (-1) 0 1 = (max (110 - 100) 0, max (100 - 110) 0) ∧
    black_scholes_price P0 100 100 1 0 (-3) =
      (100 * P0.cdf (d1 P0 100 100 1 0 (-3))
         - 100 * P0.exp (-0 * 1) * P0.cdf (d2 P0 100 100 1 0 (-3)),
       100 * P0.exp (-0 * 1) * P0.cdf (-(d2 P0 100 100 1 0 (-3)))
         - 100 * P0.cdf (-(d1 P0 100 100 1 0 (-3)))) :=
  ⟨(price_total_no_validation P0 110 100 (-1) 0 1).1 (by norm_num),
   (price_total_no_validation P0 100 100 1 0 (-3)).2 (by norm_num)⟩

/-- C4: for every input with `S > 0`, `K > 0`, `T > 0`, `sigma > 0`,
`calculate_greeks` returns `callDelta = Φ d1`, `putDelta = callDelta - 1`,
`gamma = φ d1 / (S * sigma * √T)`, the call/put thetas divided by 365,
`vega = S * φ d1 * √T` divided by 100, and the call/put rhos divided by 100,
with `d1`, `d2` exactly the quantities of the pricing formula. -/
theorem greeks_formulas (P : Prims α) (S K T r sigma : α)
    (hS : 0 < S) (hK : 0 < K) (hT : 0 < T) (hsig : 0 < sigma) :
    (calculate_greeks P S K T r sigma).call_delta = P.cdf (d1 P S K T r sigma) ∧
    (calculate_greeks P S K T r sigma).put_delta = P.cdf (d1 P S K T r sigma) - 1 ∧
    (calculate_greeks P S K T r sigma).gamma
      = P.pdf (d1 P S K T r sigma) / (S * sigma * P.sqrt T) ∧
    (calculate_greeks P S K T r sigma).call_theta
      = (-S * P.pdf (d1 P S K T r sigma) * sigma / (2 * P.sqrt T)
          - r * K * P.exp (-r * T) * P.cdf (d2 P S K T r sigma)) / 365 ∧
    (calculate_greeks P S K T r sigma).put_theta
      = (-S * P.pdf (d1 P S K T r sigma) * sigma / (2 * P.sqrt T)
          + r * K * P.exp (-r * T) * P.cdf (-(d2 P S K T r sigma))) / 365 ∧
    (calculate_greeks P S K T r sigma).vega = S * P.pdf (d1 P S K T r sigma) * P.sqrt T / 100 ∧
    (calculate_greeks P S K T r sigma).call_rho
      = K * T * P.exp (-r * T) * P.cdf (d2 P S K T r sigma) / 100 ∧
    (calculate_greeks P S K T r sigma).put_rho
      = -K * T * P.exp (-r * T) * P.cdf (-(d2 P S K T r sigma)) / 100 := by
  refine ⟨rfl, rfl, rfl, rfl, rfl, rfl, rfl, rfl⟩

/-- Witness for C4 at `S = K = 100`, `T = 1`, `r = 0`, `sigma = 1/2` with the
rational primitives `P0`; the reported vega evaluates to the scaled
`S * φ d1 * √T / 100 = 1`. -/
theorem greeks_formulas_witness :
    (calculate_greeks P0 100 100 1 0 (1 / 2)).call_delta = P0.cdf (d1 P0 100 100 1 0 (1 / 2)) ∧
    (calculate_greeks P0 100 100 1 0 (1 / 2)).vega = 1 :=
  ⟨(greeks_formulas P0 100 100 1 0 (1 / 2) (by norm_num) (by norm_num)
      (by norm_num) (by norm_num)).1,
   ((greeks_formulas P0 100 100 1 0 (1 / 2) (by norm_num) (by norm_num)
      (by norm_num) (by norm_num)).2.2.2.2.2.1).trans (by norm_num [P0])⟩

/-- C5: `implied_volatility` always terminates: it is the 100-fuel Newton loop
started at `sigma = 1/2` (so at most 100 iterations are ever performed); each
step returns the current `sigma` as soon as `|observed - model| < 1e-5`,
returns the current `sigma` when the Newton vega is exactly `0`, otherwise
recurses on the updated `sigma`; and exhausted fuel returns the last `sigma`
reached. -/
theorem implied_volatility_termination (P : Prims α) (option_price S K T r : α)
    (option_type : String) :
    implied_volatility P option_price S K T r option_type
      = iv_loop P option_price S K T r option_type 100 (1 / 2) ∧
    (∀ sigma, iv_loop P option_price S K T r option_type 0 sigma = sigma) ∧
    (∀ n sigma,
      |option_price - iv_leg P S K T r sigma option_type| < 1 / 100000 →
        iv_loop P option_price S K T r option_type (n + 1) sigma = sigma) ∧
    (∀ n sigma,
      ¬ |option_price - iv_leg P S K T r sigma option_type| < 1 / 100000 →
      iv_vega P S K T r sigma = 0 →
        iv_loop P option_price S K T r option_type (n + 1) sigma = sigma) ∧
    (∀ n sigma,
      ¬ |option_price - iv_leg P S K T r sigma option_type| < 1 / 100000 →
      iv_vega P S K T r sigma ≠ 0 →
        iv_loop P option_price S K T r option_type (n + 1) sigma
          = iv_loop P option_price S K T r option_type n
              (iv_update P option_price S K T r sigma option_type)) := by
  refine ⟨rfl, fun sigma => rfl, fun n sigma hconv => ?_, fun n sigma hconv hveg => ?_,
    fun n sigma hconv hveg => ?_⟩
  · simp only [iv_loop]
    rw [if_pos hconv]
  · simp only [iv_loop]
    rw [if_neg hconv, if_pos hveg]
  · simp only [iv_loop]
    rw [if_neg hconv, if_neg hveg]

/-- Witness for C5: with the vega-killing primitives `Pz` the loop stops on its
vega-zero branch in the very first of the 100 iterations, and with `P0` a
residual of `0` triggers immediate convergence. -/
theorem implied_volatility_termination_witness :
    iv_loop Pz (-1) 100 100 1 0 "call" 1 (1 / 2) = 1 / 2 ∧
    iv_loop P0 0 100 100 1 0 "call" 1 (1 / 2) = 1 / 2 :=
  ⟨(implied_volatility_termination Pz (-1) 100 100 1 0 "call").2.2.2.1 0 (1 / 2)
     (by norm_num [iv_leg, black_scholes_price, Pz])
     (by norm_num [iv_vega, calculate_greeks, Pz]),
   (implied_volatility_termination P0 0 100 100 1 0 "call").2.2.1 0 (1 / 2)
     (by norm_num [iv_leg, black_scholes_price, P0])⟩

/-- C6: whenever a Newton update of `implied_volatility` would drive `sigma`
negative it is replaced by `0.001` and iteration continues; consequently from
any non-negative `sigma` the loop stays non-negative, and the `sigma` finally
returned by `implied_volatility` is never negative. -/
theorem implied_volatility_nonneg (P : Prims α) (option_price S K T r : α)
    (option_type : String) :
    (∀ sigma,
      sigma - (option_price - iv_leg P S K T r sigma option_type) / iv_vega P S K T r sigma < 0 →
        iv_update P option_price S K T r sigma option_type = 1 / 1000) ∧
    (∀ n sigma, 0 ≤ sigma → 0 ≤ iv_loop P option_price S K T r option_type n sigma) ∧
    0 ≤ implied_volatility P option_price S K T r option_type := by
  have hupd : ∀ sigma : α, 0 ≤ iv_update P option_price S K T r sigma option_type := by
    intro sigma
    unfold iv_update
    split
    · norm_num
    · exact not_lt.mp (by assumption)
  have hloop : ∀ n (sigma : α), 0 ≤ sigma →
      0 ≤ iv_loop P option_price S K T r option_type n sigma := by
    intro n
    induction n with
    | zero => intro sigma h; exact h
    | succ n ih =>
      intro sigma h
      unfold iv_loop
      split
      · exact h
      · split
        · exact h
        · exact ih _ (hupd sigma)
  refine ⟨fun sigma hneg => ?_, hloop, hloop 100 (1 / 2) (by norm_num)⟩
  unfold iv_update
  exact if_pos hneg

/-- Witness for C6: a concrete clamped step (`P0`, observed price `100`, model
leg `0`, Newton vega `100`, so the raw update `1/2 - 100/100 = -1/2` is
negative and the update is `0.001`) and a concrete non-negative loop value. -/
theorem implied_volatility_nonneg_witness :
    iv_update P0 100 100 100 1 0 (1 / 2) "call" = 1 / 1000 ∧
    0 ≤ iv_loop P0 100 100 100 1 0 "call" 3 (1 / 2) :=
  ⟨(implied_volatility_nonneg P0 100 100 100 1 0 "call").1 (1 / 2)
     (by norm_num [iv_leg, iv_vega, black_scholes_price, calculate_greeks, d1, d2, P0]),
   (implied_volatility_nonneg P0 100 100 100 1 0 "call").2.1 3 (1 / 2) (by norm_num)⟩

/-- At `observedPrice = 0`, `S = K = 100`, `T = 0` the solver's first
iteration decides the result without consulting any numerical primitive: the
model leg comes from the intrinsic branch of `black_scholes_price`
(`max (100 - 100) 0 = 0`), the residual is `|0 - 0| = 0 < 1e-5`, and the
current `sigma = 1/2` is returned — for EVERY choice of primitives, so this is
the behaviour of the real program at this input. -/
theorem iv_expiry_returns_half (P : Prims α) :
    implied_volatility P 0 100 100 0 0 "call" = 1 / 2 := by
  have h : iv_leg P 100 100 0 0 (1 / 2) "call" = 0 := by
    norm_num [iv_leg, black_scholes_price, max_def]
  show iv_loop P 0 100 100 0 0 "call" (99 + 1) (1 / 2) = 1 / 2
  rw [iv_loop, if_pos (by rw [h]; norm_num)]

/-- C7 counterexample: the claim says `implied_volatility` fails with
`InvalidInput` for `T ≤ 0`; instead, at `T = 0` (with observed price `0`,
`S = K = 100`) the code returns the normal value `sigma = 1/2` on its first
iteration.  That run touches only the intrinsic-value branch and the
convergence test, never `log`/`sqrt`/`exp`/`Φ`/`φ`, as the universally
quantified `iv_expiry_returns_half` shows — the instantiation at `P0` below
merely closes the statement. -/
theorem iv_no_validation_counterexample :
    implied_volatility P0 0 100 100 0 0 "call" = 1 / 2 :=
  iv_expiry_returns_half P0

/-- C7 amended: `implied_volatility` performs no input validation: negative
observed prices and non-positive `S`, `K`, `T` are accepted unchecked — the
Newton loop is entered unconditionally, and with `T ≤ 0` the model leg it
iterates on is just the `sigma`-independent intrinsic value. -/
theorem iv_no_validation (P : Prims α) (option_price S K T r : α) (option_type : String) :
    implied_volatility P option_price S K T r option_type
      = iv_loop P option_price S K T r option_type 100 (1 / 2) ∧
    (∀ sigma, T ≤ 0 →
      iv_leg P S K T r sigma option_type
        = if option_type = "call" then max (S - K) 0 else max (K - S) 0) := by
  refine ⟨rfl, fun sigma hT => ?_⟩
  unfold iv_leg
  rw [black_scholes_price, if_pos hT]

/-- Witness for C7's amended statement: at `T = -1` the solver's model leg is
the intrinsic value `max (100 - 100) 0`. -/
theorem iv_no_validation_witness :
    iv_leg P0 100 100 (-1) 0 (1 / 2) "call" = 0 :=
  ((iv_no_validation P0 42 100 100 (-1) 0 "call").2 (1 / 2) (by norm_num)).trans
    (by rw [if_pos rfl]; norm_num [max_def])

/-- A 20-point linspace is the map of `i ↦ lo + i * ((hi - lo) / 19)` over
`List.range 20`. -/
theorem linspace_twenty (lo hi : α) :
    linspace lo hi 20 = (List.range 20).map fun i : ℕ => lo + (i : α) * ((hi - lo) / 19) := by
  unfold linspace
  rw [if_neg (by norm_num)]
  refine congrArg (fun f => List.map f (List.range 20)) (funext fun i => ?_)
  norm_num

/-- `linspace` always returns exactly the requested number of samples. -/
theorem linspace_length (lo hi : α) (n : Nat) : (linspace lo hi n).length = n := by
  unfold linspace
  split
  · simp [*]
  · simp

/-- Element `i` of a 20-point linspace. -/
theorem linspace_twenty_get (lo hi : α) (i : Nat) (h : i < (linspace lo hi 20).length) :
    (linspace lo hi 20).get ⟨i, h⟩ = lo + (i : α) * ((hi - lo) / 19) := by
  rw [List.get_eq_getElem, List.getElem_of_eq (linspace_twenty lo hi) h]
  simp [List.getElem_map, List.getElem_range]

/-- The first sample of a 20-point linspace is the lower endpoint. -/
theorem linspace_twenty_first (lo hi : α) (h : 0 < (linspace lo hi 20).length) :
    (linspace lo hi 20).get ⟨0, h⟩ = lo := by
  rw [linspace_twenty_get]
  norm_num

/-- The last sample of a 20-point linspace is the upper endpoint. -/
theorem linspace_twenty_last (lo hi : α) (h : 19 < (linspace lo hi 20).length) :
    (linspace lo hi 20).get ⟨19, h⟩ = hi := by
  rw [linspace_twenty_get]
  have h19 : (19 : α) ≠ 0 := by norm_num
  push_cast
  field_simp

/-- C8: with `grid_size = 20`, `generate_pnl_surface` returns price and
volatility axes of length 20, evenly spaced over the symmetric relative range
around the base value with both endpoints included, and 20×20 P&L matrices
whose cell `[i][j]` is the kernel price at
`(spot = priceAxis[j], sigma = volAxis[i])` (with `K`, `T`, `r` fixed) minus
the corresponding purchase cost. -/
theorem pnl_surface_shape (P : Prims α)
    (base_S K T r base_sigma call_purchase put_purchase price_range vol_range : α)
    (s : PnLSurface α)
    (hs : s = generate_pnl_surface P base_S K T r base_sigma call_purchase put_purchase
      price_range vol_range 20) :
    s.stock_prices.length = 20 ∧
    s.volatilities.length = 20 ∧
    (∀ i (h : i < s.stock_prices.length),
      s.stock_prices.get ⟨i, h⟩
        = base_S * (1 - price_range)
            + (i : α) * ((base_S * (1 + price_range) - base_S * (1 - price_range)) / 19)) ∧
    (∀ h : 0 < s.stock_prices.length,
      s.stock_prices.get ⟨0, h⟩ = base_S * (1 - price_range)) ∧
    (∀ h : 19 < s.stock_prices.length,
      s.stock_prices.get ⟨19, h⟩ = base_S * (1 + price_range)) ∧
    (∀ i (h : i < s.volatilities.length),
      s.volatilities.get ⟨i, h⟩
        = base_sigma * (1 - vol_range)
            + (i : α) * ((base_sigma * (1 + vol_range) - base_sigma * (1 - vol_range)) / 19)) ∧
    (∀ h : 0 < s.volatilities.length,
      s.volatilities.get ⟨0, h⟩ = base_sigma * (1 - vol_range)) ∧
    (∀ h : 19 < s.volatilities.length,
      s.volatilities.get ⟨19, h⟩ = base_sigma * (1 + vol_range)) ∧
    s.call_pnl.length = 20 ∧
    s.put_pnl.length = 20 ∧
    (∀ row ∈ s.call_pnl, row.length = 20) ∧
    (∀ row ∈ s.put_pnl, row.length = 20) ∧
    (∀ i j (hi : i < s.call_pnl.length) (hj : j < (s.call_pnl.get ⟨i, hi⟩).length)
        (hi' : i < s.volatilities.length) (hj' : j < s.stock_prices.length),
      (s.call_pnl.get ⟨i, hi⟩).get ⟨j, hj⟩
        = (black_scholes_price P (s.stock_prices.get ⟨j, hj'⟩) K T r
            (s.volatilities.get ⟨i, hi'⟩)).1 - call_purchase) ∧
    (∀ i j (hi : i < s.put_pnl.length) (hj : j < (s.put_pnl.get ⟨i, hi⟩).length)
        (hi' : i < s.volatilities.length) (hj' : j < s.stock_prices.length),
      (s.put_pnl.get ⟨i, hi⟩).get ⟨j, hj⟩
        = (black_scholes_price P (s.stock_prices.get ⟨j, hj'⟩) K T r
            (s.volatilities.get ⟨i, hi'⟩)).2 - put_purchase) := by
  subst hs
  simp only [generate_pnl_surface]
  refine ⟨linspace_length _ _ _, linspace_length _ _ _,
    fun i h => linspace_twenty_get _ _ i h,
    fun h => linspace_twenty_first _ _ h,
    fun h => linspace_twenty_last _ _ h,
    fun i h => linspace_twenty_get _ _ i h,
    fun h => linspace_twenty_first _ _ h,
    fun h => linspace_twenty_last _ _ h,
    ?_, ?_, ?_, ?_, ?_, ?_⟩
  · simp [linspace_length]
  · simp [linspace_length]
  · intro row hrow
    simp only [List.mem_map] at hrow
    obtain ⟨vol, -, rfl⟩ := hrow
    simp [linspace_length]
  · intro row hrow
    simp only [List.mem_map] at hrow
    obtain ⟨vol, -, rfl⟩ := hrow
    simp [linspace_length]
  · intro i j hi hj hi' hj'
    simp [List.get_eq_getElem, List.getElem_map]
  · intro i j hi hj hi' hj'
    simp [List.get_eq_getElem, List.getElem_map]

/-- Witness for C8 at a concrete base scenario: 20 price samples, and the
`[0][0]` cell of the call P&L matrix is the kernel price at the lowest
price/volatility node minus the call cost. -/
theorem pnl_surface_shape_witness :
    (generate_pnl_surface P0 100 100 1 0 (1 / 2) 3 2 (1 / 5) (1 / 10) 20).stock_prices.length
      = 20 ∧
    (generate_pnl_surface P0 100 100 1 0 (1 / 2) 3 2 (1 / 5) (1 / 10) 20).stock_prices.get
      ⟨0, by simp [generate_pnl_surface, linspace_length]⟩ = 100 * (1 - 1 / 5) :=
  ⟨(pnl_surface_shape P0 100 100 1 0 (1 / 2) 3 2 (1 / 5) (1 / 10) _ rfl).1,
   (pnl_surface_shape P0 100 100 1 0 (1 / 2) 3 2 (1 / 5) (1 / 10) _ rfl).2.2.2.1 _⟩

/-- At `base_S = 100`, `price_range = 3/2 ≥ 1`, `grid_size = 2` the generator
builds the surface normally — price axis `[-50, 250]` (pure linspace
arithmetic) — and its call matrix is, cell by cell, the pricing kernel
APPLIED at those axis nodes, in particular at the non-positive spot `-50`.
This holds for EVERY choice of primitives, so it is the real program's
behaviour at this input; no value of the `-50` cell is asserted (in Python it
is `nan`, from `np.log` of a negative argument — still no exception). -/
theorem pnl_surface_accepts_range (P : Prims α) :
    (generate_pnl_surface P 100 100 1 0 (1 / 2) 0 0 (3 / 2) 0 2).stock_prices = [-50, 250] ∧
    (generate_pnl_surface P 100 100 1 0 (1 / 2) 0 0 (3 / 2) 0 2).call_pnl
      = [[(black_scholes_price P (-50) 100 1 0 (1 / 2)).1 - 0,
          (black_scholes_price P 250 100 1 0 (1 / 2)).1 - 0],
         [(black_scholes_price P (-50) 100 1 0 (1 / 2)).1 - 0,
          (black_scholes_price P 250 100 1 0 (1 / 2)).1 - 0]] ∧
    (-50 : α) ≤ 0 := by
  refine ⟨?_, ?_, by norm_num⟩
  · norm_num [generate_pnl_surface, linspace, List.range_succ]
  · norm_num [generate_pnl_surface, linspace, List.range_succ]

/-- C9 counterexample: the claim says a relative range `≥ 1` on the spot or
volatility axis is rejected with `InvalidInput` and that the kernel is never
evaluated at a node with spot `≤ 0`; instead, at `price_range = 3/2` the
surface is built normally, its price axis starts at the non-positive spot
`-50`, and the kernel is invoked there.  The facts asserted are independent of
the primitives (`pnl_surface_accepts_range`); the instantiation at `P0` below
merely closes the statement. -/
theorem grid_no_range_validation_counterexample :
    (generate_pnl_surface P0 100 100 1 0 (1 / 2) 0 0 (3 / 2) 0 2).stock_prices = [-50, 250] ∧
    (generate_pnl_surface P0 100 100 1 0 (1 / 2) 0 0 (3 / 2) 0 2).call_pnl
      = [[(black_scholes_price P0 (-50) 100 1 0 (1 / 2)).1 - 0,
          (black_scholes_price P0 250 100 1 0 (1 / 2)).1 - 0],
         [(black_scholes_price P0 (-50) 100 1 0 (1 / 2)).1 - 0,
          (black_scholes_price P0 250 100 1 0 (1 / 2)).1 - 0]] ∧
    ((-50 : ℚ) ≤ 0) :=
  pnl_surface_accepts_range P0

/-- C9 amended: grid construction performs no validation of the relative
range: any `relativeRange ≥ 1` is accepted, the resulting price axis starts at
the non-positive value `base_S * (1 - range)`, and both generators evaluate
the kernel at that node (cell `[0][0]` of the call P&L is the kernel price at
that spot and at volatility `base_sigma * (1 - vol_range)`). -/
theorem grid_no_range_validation (P : Prims α)
    (base_S K T r base_sigma call_purchase put_purchase price_range vol_range : α)
    (s : PnLSurface α)
    (hs : s = generate_pnl_surface P base_S K T r base_sigma call_purchase put_purchase
      price_range vol_range 20)
    (hS : 0 < base_S) (hpr : 1 ≤ price_range) :
    base_S * (1 - price_range) ≤ 0 ∧
    (∀ h : 0 < s.stock_prices.length,
      s.stock_prices.get ⟨0, h⟩ = base_S * (1 - price_range)) ∧
    (∀ (hi : 0 < s.call_pnl.length) (hj : 0 < (s.call_pnl.get ⟨0, hi⟩).length)
        (hi' : 0 < s.volatilities.length) (hj' : 0 < s.stock_prices.length),
      (s.call_pnl.get ⟨0, hi⟩).get ⟨0, hj⟩
        = (black_scholes_price P (s.stock_prices.get ⟨0, hj'⟩) K T r
            (s.volatilities.get ⟨0, hi'⟩)).1 - call_purchase) := by
  subst hs
  simp only [generate_pnl_surface]
  refine ⟨?_, fun h => linspace_twenty_first _ _ h, ?_⟩
  · nlinarith
  · intro hi hj hi' hj'
    simp [List.get_eq_getElem, List.getElem_map]

/-- Witness for C9's amended statement at `base_S = 100`, `price_range = 3/2`:
the lower spot bound is `-50 ≤ 0` and it is the first axis sample. -/
theorem grid_no_range_validation_witness :
    (100 : ℚ) * (1 - 3 / 2) ≤ 0 ∧
    (generate_pnl_surface P0 100 100 1 0 (1 / 2) 0 0 (3 / 2) (1 / 10) 20).stock_prices.get
      ⟨0, by simp [generate_pnl_surface, linspace_length]⟩ = 100 * (1 - 3 / 2) :=
  ⟨(grid_no_range_validation P0 100 100 1 0 (1 / 2) 0 0 (3 / 2) (1 / 10) _ rfl
      (by norm_num) (by norm_num)).1,
   (grid_no_range_validation P0 100 100 1 0 (1 / 2) 0 0 (3 / 2) (1 / 10) _ rfl
      (by norm_num) (by norm_num)).2.1 _⟩

/-- C10: in `implied_volatility`, any `option_type` other than the exact
string `"call"` selects the put leg, so the solver's result coincides with the
`"put"` run; unrecognized side values are never rejected. -/
theorem side_defaults_to_put (P : Prims α) (option_price S K T r : α) (option_type : String)
    (h : option_type ≠ "call") :
    implied_volatility P option_price S K T r option_type
      = implied_volatility P option_price S K T r "put" := by
  have hleg : ∀ sigma : α, iv_leg P S K T r sigma option_type = iv_leg P S K T r sigma "put" := by
    intro sigma
    unfold iv_leg
    rw [if_neg h, if_neg (by decide : ¬ ("put" = "call"))]
  have hupd : ∀ sigma : α, iv_update P option_price S K T r sigma option_type
      = iv_update P option_price S K T r sigma "put" := by
    intro sigma
    unfold iv_update
    rw [hleg]
  have hloop : ∀ n (sigma : α), iv_loop P option_price S K T r option_type n sigma
      = iv_loop P option_price S K T r "put" n sigma := by
    intro n
    induction n with
    | zero => intro sigma; rfl
    | succ n ih =>
      intro sigma
      simp only [iv_loop]
      rw [hleg, hupd, ih]
  exact hloop 100 (1 / 2)

/-- Witness for C10: the misspelled side `"straddle"` is not rejected and
behaves exactly like `"put"`. -/
theorem side_defaults_to_put_witness :
    implied_volatility P0 1 100 100 1 0 "straddle"
      = implied_volatility P0 1 100 100 1 0 "put" :=
  side_defaults_to_put P0 1 100 100 1 0 "straddle" (by decide)

end BlackScholes
